import Mathlib

/-!
Verification of the senamhi-tracker warning lifecycle and geometry
reconciliation core against its specification.

Shallow embedding conventions:
* Python `datetime` values are modelled as `Int` absolute second counts
  (proleptic Gregorian ordinal seconds); `datetime` comparison and
  subtraction then agree with `Int` comparison and subtraction.
* Python `timedelta.days` is floor division of the second count by 86400,
  which for the positive divisor 86400 coincides with `Int.fdiv`.
* Python `str.upper` / `str.lower` on the ASCII code strings compared here
  are modelled per character with `Char.toUpper` / `Char.toLower`.
* SQLAlchemy query state is modelled as an explicit list of rows; a
  `.first()` lookup is `List.find?`, an in-place ORM update rewrites the
  first matching row of the list, an insert appends a row.
-/

namespace Senamhi

/-- Warning severity levels, from `app/models/warning.py` (`WarningSeverity`). -/
inductive WarningSeverity where
  | GREEN
  | YELLOW
  | ORANGE
  | RED
deriving DecidableEq, Repr

/-- Warning status values, from `app/models/warning.py` (`WarningStatus`). -/
inductive WarningStatus where
  | EMITIDO
  | VIGENTE
  | VENCIDO
deriving DecidableEq, Repr

/-- Splitting a character list on a separator, modelling Python `str.split`
as used by `datetime.strptime` field separation. -/
def splitOnChar (sep : Char) : List Char → List (List Char)
  | [] => [[]]
  | c :: rest =>
    if c = sep then [] :: splitOnChar sep rest
    else
      match splitOnChar sep rest with
      | [] => [[c]]
      | g :: gs => (c :: g) :: gs

/-- Decimal value of a digit string. -/
def digitsVal (cs : List Char) : Nat :=
  cs.foldl (fun a c => a * 10 + (c.toNat - 48)) 0

/-- Parse one numeric `strptime` field: all digits, length within
`[minLen, maxLen]`, value within `[lo, hi]`. -/
def parseField (cs : List Char) (minLen maxLen lo hi : Nat) : Option Nat :=
  if cs.all Char.isDigit ∧ minLen ≤ cs.length ∧ cs.length ≤ maxLen then
    let n := digitsVal cs
    if lo ≤ n ∧ n ≤ hi then some n else none
  else none

/-- Gregorian leap-year test, as validated by Python `datetime`. -/
def isLeap (y : Nat) : Bool :=
  (y % 4 = 0 ∧ y % 100 ≠ 0) ∨ y % 400 = 0

/-- Number of days in a month, as validated by the Python `datetime`
constructor inside `strptime`. -/
def daysInMonth (y m : Nat) : Nat :=
  if m = 2 then (if isLeap y then 29 else 28)
  else if m = 4 ∨ m = 6 ∨ m = 9 ∨ m = 11 then 30
  else 31

/-- Days in the proleptic Gregorian calendar before year `y` (year 1 based),
mirroring Python `datetime.toordinal` arithmetic. -/
def daysBeforeYear (y : Nat) : Nat :=
  let n := y - 1
  n * 365 + n / 4 - n / 100 + n / 400

/-- Days before month `m` within year `y`. -/
def daysBeforeMonth (y m : Nat) : Nat :=
  (List.range (m - 1)).foldl (fun a i => a + daysInMonth y (i + 1)) 0

/-- Absolute second count of a Gregorian datetime, the `Int` model of a
Python `datetime` value. -/
def toTimestamp (y m d h mi s : Nat) : Int :=
  Int.ofNat ((((daysBeforeYear y + daysBeforeMonth y m + (d - 1)) * 24 + h) * 60 + mi) * 60 + s)

/-- Embedding of `WarningScraper._parse_senamhi_datetime`
(`app/scrapers/warning_scraper.py`): `datetime.strptime` with format
`DD/MM/YYYY HH:MM:SS`; `none` models the `ValueError` raised on malformed
input (wrong shape, non-digits, out-of-range fields, invalid calendar day). -/
def parseSenamhiDatetime (s : String) : Option Int :=
  match splitOnChar ' ' s.data with
  | [datePart, timePart] =>
    match splitOnChar '/' datePart, splitOnChar ':' timePart with
    | [ds, ms, ys], [hs, mis, ss] => do
      let d ← parseField ds 1 2 1 31
      let m ← parseField ms 1 2 1 12
      let y ← parseField ys 4 4 1 9999
      let h ← parseField hs 1 2 0 23
      let mi ← parseField mis 1 2 0 59
      let sec ← parseField ss 1 2 0 59
      if d ≤ daysInMonth y m then some (toTimestamp y m d h mi sec) else none
    | _, _ => none
  | _ => none

/-- Uppercase a string per character, modelling Python `str.upper` on the
ASCII strings handled by the scraper. -/
def pyUpper (s : String) : String :=
  String.mk (s.data.map Char.toUpper)

/-- Embedding of `WarningScraper._map_severity`
(`app/scrapers/warning_scraper.py` lines 56-75): the upper-cased color code
is matched first; otherwise the `nivel` string is looked up in the numeric
map, with `YELLOW` as the `.get` default. -/
def mapSeverity (nivel color : String) : WarningSeverity :=
  if pyUpper color = "VERDE" then WarningSeverity.GREEN
  else if pyUpper color = "AMARILLO" then WarningSeverity.YELLOW
  else if pyUpper color = "NARANJA" then WarningSeverity.ORANGE
  else if pyUpper color = "ROJO" then WarningSeverity.RED
  else if nivel = "1" then WarningSeverity.GREEN
  else if nivel = "2" then WarningSeverity.YELLOW
  else if nivel = "3" then WarningSeverity.ORANGE
  else if nivel = "4" then WarningSeverity.RED
  else WarningSeverity.YELLOW

/-- Severity resolved from the color code alone, written from the spec's
words for the refinement statement of C9. -/
def specColorSeverity (color : String) : Option WarningSeverity :=
  if pyUpper color = "VERDE" then some WarningSeverity.GREEN
  else if pyUpper color = "AMARILLO" then some WarningSeverity.YELLOW
  else if pyUpper color = "NARANJA" then some WarningSeverity.ORANGE
  else if pyUpper color = "ROJO" then some WarningSeverity.RED
  else none

/-- Severity resolved from the numeric level alone, written from the spec's
words for the refinement statement of C9. -/
def specNivelSeverity (nivel : String) : Option WarningSeverity :=
  if nivel = "1" then some WarningSeverity.GREEN
  else if nivel = "2" then some WarningSeverity.YELLOW
  else if nivel = "3" then some WarningSeverity.ORANGE
  else if nivel = "4" then some WarningSeverity.RED
  else none

/-- Embedding of the status computation of `WarningScraper._parse_warning`
(`app/scrapers/warning_scraper.py` lines 91-98). -/
def deriveStatus (valid_from valid_until now : Int) : WarningStatus :=
  if valid_from ≤ now ∧ now ≤ valid_until then WarningStatus.VIGENTE
  else if valid_from > now then WarningStatus.EMITIDO
  else WarningStatus.VENCIDO

/-- Embedding of `ShapefileDownloader.calculate_warning_days`
(`app/scrapers/shapefile_downloader.py` lines 66-78): a full-datetime
subtraction, whose `timedelta.days` is the floor of the second difference
over 86400, then `max(1, days + 1)`. -/
def calculate_warning_days (valid_from valid_until : Int) : Int :=
  max 1 (Int.fdiv (valid_until - valid_from) 86400 + 1)

/-- Calendar day of a timestamp (Python `datetime.date()` as an ordinal),
the floor of the second count over 86400. -/
def calendarDay (t : Int) : Int :=
  Int.fdiv t 86400

/-- Time of day in seconds of a timestamp. -/
def timeOfDay (t : Int) : Int :=
  t % 86400

/-- Day count computed as the claim C4 words it:
`max(1, (valid_until.date() - valid_from.date()).days + 1)`. -/
def spec_calculate_warning_days (valid_from valid_until : Int) : Int :=
  max 1 (calendarDay valid_until - calendarDay valid_from + 1)

/-- C1: for every triple `(valid_from, valid_until, now)`, the status the
normalizer derives is VIGENTE iff `valid_from <= now <= valid_until`,
EMITIDO iff `now < valid_from`, and VENCIDO exactly otherwise. -/
theorem C1_status_derivation (valid_from valid_until now : Int) :
    (deriveStatus valid_from valid_until now = WarningStatus.VIGENTE ↔
      (valid_from ≤ now ∧ now ≤ valid_until)) ∧
    (deriveStatus valid_from valid_until now = WarningStatus.EMITIDO ↔
      now < valid_from) ∧
    (deriveStatus valid_from valid_until now = WarningStatus.VENCIDO ↔
      (¬(valid_from ≤ now ∧ now ≤ valid_until) ∧ ¬(now < valid_from))) := by
  unfold deriveStatus
  refine ⟨?_, ?_, ?_⟩ <;> split_ifs with h1 h2 <;> simp_all

/-- C9: the resolved severity is the color-code resolution when the color
matches one of the four recognized names, the numeric-level resolution as a
fallback, and YELLOW when neither resolves; in particular color ROJO with
nivel 2 resolves to RED. -/
theorem C9_severity_resolution (nivel color : String) :
    mapSeverity nivel color =
      (specColorSeverity color).getD ((specNivelSeverity nivel).getD WarningSeverity.YELLOW) ∧
    mapSeverity "2" "ROJO" = WarningSeverity.RED := by
  constructor
  · unfold mapSeverity specColorSeverity specNivelSeverity
    split_ifs <;> rfl
  · decide

/-- C4 counterexample: with `valid_from` at 23:00 and `valid_until` at
01:00 the next day, the code computes 1 day while the claim's formula
`max(1, (valid_until.date() - valid_from.date()).days + 1)` gives 2. -/
theorem C4_counterexample :
    calculate_warning_days 82800 90000 = 1 ∧
    spec_calculate_warning_days 82800 90000 = 2 ∧
    calculate_warning_days 82800 90000 ≠ spec_calculate_warning_days 82800 90000 := by
  decide

/-- C4 (amended): `calculate_warning_days` returns
`max(1, (valid_until - valid_from).days + 1)` computed on the full datetime
difference; assuming `valid_from <= valid_until`, it is never less than 1,
returns 1 when both fall on the same calendar day, and agrees with the
claim's calendar-date formula exactly when `valid_until`'s time of day is
not earlier than `valid_from`'s. -/
theorem C4_day_count (valid_from valid_until : Int) (hle : valid_from ≤ valid_until) :
    1 ≤ calculate_warning_days valid_from valid_until ∧
    (calendarDay valid_from = calendarDay valid_until →
      calculate_warning_days valid_from valid_until = 1) ∧
    (calculate_warning_days valid_from valid_until =
        spec_calculate_warning_days valid_from valid_until ↔
      timeOfDay valid_from ≤ timeOfDay valid_until) := by
  unfold calculate_warning_days spec_calculate_warning_days calendarDay timeOfDay
  rw [Int.fdiv_eq_ediv _ (by norm_num), Int.fdiv_eq_ediv _ (by norm_num),
    Int.fdiv_eq_ediv _ (by norm_num)]
  simp only [max_def]
  split_ifs <;> omega

/-- Witness for C4_day_count at a concrete aligned window. -/
theorem C4_day_count_witness :
    (0 : Int) ≤ 86400 ∧
    (1 ≤ calculate_warning_days 0 86400 ∧
     (calendarDay 0 = calendarDay 86400 → calculate_warning_days 0 86400 = 1) ∧
     (calculate_warning_days 0 86400 = spec_calculate_warning_days 0 86400 ↔
       timeOfDay 0 ≤ timeOfDay 86400)) :=
  ⟨by decide, C4_day_count 0 86400 (by decide)⟩

/-- Canonical in-memory warning value, from `app/models/warning.py`
(`Warning`). -/
structure Warning where
  senamhi_id : Int
  warning_number : String
  department : String
  severity : WarningSeverity
  status : WarningStatus
  title : String
  description : String
  valid_from : Int
  valid_until : Int
  issued_at : Int
  scraped_at : Int
deriving DecidableEq, Repr

/-- One raw record of the upstream `Avisos` array, the dict fields read by
`WarningScraper._parse_warning`. -/
structure AvisoData where
  id : Int
  numero : String
  titulo : String
  descripcion : String
  fechaEmision : String
  fechaInicio : String
  fechaFin : String
  nivel : String
  colorNivel : String
deriving DecidableEq, Repr

/-- Lowercase a string per character, modelling Python `str.lower` for the
title exclusion check. -/
def pyLower (s : String) : String :=
  String.mk (s.data.map Char.toLower)

/-- Does `needle` start the list `hay`. -/
def charsStartWith : List Char → List Char → Bool
  | [], _ => true
  | _ :: _, [] => false
  | a :: as, b :: bs => a = b && charsStartWith as bs

/-- Does `needle` occur contiguously inside `hay`, modelling the Python
substring operator `in`. -/
def charsOccur (needle : List Char) : List Char → Bool
  | [] => needle.isEmpty
  | c :: rest => charsStartWith needle (c :: rest) || charsOccur needle rest

/-- Python substring containment `needle in haystack`. -/
def strContains (haystack needle : String) : Bool :=
  charsOccur needle.data haystack.data

/-- Embedding of `WarningScraper._parse_warning`
(`app/scrapers/warning_scraper.py` lines 77-119): forest-fire titles are
rejected, the three timestamps are parsed (any `strptime` failure is the
caught exception, so the record yields `none`), severity and status are
derived, and VENCIDO records are dropped; `now` stands for
`datetime.now()`, which is also the pydantic `scraped_at` default. -/
def parse_warning (aviso : AvisoData) (department : String) (now : Int) : Option Warning :=
  if strContains (pyLower aviso.titulo) "incendios forestales" then none
  else
    match parseSenamhiDatetime aviso.fechaEmision,
        parseSenamhiDatetime aviso.fechaInicio,
        parseSenamhiDatetime aviso.fechaFin with
    | some issued_at, some valid_from, some valid_until =>
      if deriveStatus valid_from valid_until now = WarningStatus.VENCIDO then none
      else
        some
          { senamhi_id := aviso.id
            warning_number := aviso.numero
            department := department
            severity := mapSeverity aviso.nivel aviso.colorNivel
            status := deriveStatus valid_from valid_until now
            title := aviso.titulo
            description := aviso.descripcion
            valid_from := valid_from
            valid_until := valid_until
            issued_at := issued_at
            scraped_at := now }
    | _, _, _ => none

/-- A raw record has a malformed timestamp when any of its three
`strptime` calls fails. -/
def malformedTimestamp (a : AvisoData) : Prop :=
  parseSenamhiDatetime a.fechaEmision = none ∨
  parseSenamhiDatetime a.fechaInicio = none ∨
  parseSenamhiDatetime a.fechaFin = none

instance (a : AvisoData) : Decidable (malformedTimestamp a) := by
  unfold malformedTimestamp
  infer_instance

/-- Embedding of the parse loop of
`WarningScraper.scrape_warnings_for_department`
(`app/scrapers/warning_scraper.py` lines 142-148) after a successful fetch:
each record is parsed individually and only the successfully parsed ones
are collected; the department is upper-cased before parsing as in line 123. -/
def scrape_department_avisos (avisos : List AvisoData) (department : String) (now : Int) :
    List Warning :=
  avisos.filterMap (fun a => parse_warning a (pyUpper department) now)

/-- A malformed timestamp always drops the record. -/
theorem parse_warning_of_malformed (a : AvisoData) (d : String) (now : Int)
    (h : malformedTimestamp a) : parse_warning a d now = none := by
  unfold parse_warning
  split
  · rfl
  · rcases h with h | h | h <;> rw [h] <;>
      cases parseSenamhiDatetime a.fechaEmision <;>
      cases parseSenamhiDatetime a.fechaInicio <;>
      cases parseSenamhiDatetime a.fechaFin <;> rfl

/-- Each successfully parsed record contributes one warning and each
malformed-timestamp record contributes none, so the two counts add up to
the batch size. -/
theorem filterMap_parse_length (d : String) (now : Int) :
    ∀ avisos : List AvisoData,
      (∀ a ∈ avisos, ¬malformedTimestamp a → (parse_warning a d now).isSome = true) →
      (avisos.filterMap (fun a => parse_warning a d now)).length
        + (avisos.filter (fun a => decide (malformedTimestamp a))).length
        = avisos.length
  | [], _ => by simp
  | a :: rest, h => by
    have ihr := filterMap_parse_length d now rest
      (fun x hx hm => h x (List.mem_cons_of_mem _ hx) hm)
    by_cases hm : malformedTimestamp a
    · rw [List.filterMap_cons, parse_warning_of_malformed a d now hm, List.filter_cons]
      simp [hm]
      omega
    · obtain ⟨w, hw⟩ := Option.isSome_iff_exists.mp (h a (List.mem_cons_self a rest) hm)
      rw [List.filterMap_cons, hw, List.filter_cons]
      simp [hm]
      omega

/-- C7: for every batch of raw warning records in which exactly `k` records
have a malformed timestamp and all the others normalize successfully,
processing the batch yields exactly `N - k` warnings: malformed records are
dropped individually and the batch is never aborted. -/
theorem C7_partial_batch_resilience (avisos : List AvisoData) (department : String)
    (now : Int) (k : Nat)
    (hk : (avisos.filter (fun a => decide (malformedTimestamp a))).length = k)
    (hrest : ∀ a ∈ avisos, ¬malformedTimestamp a →
      (parse_warning a (pyUpper department) now).isSome = true) :
    (scrape_department_avisos avisos department now).length = avisos.length - k := by
  have h := filterMap_parse_length (pyUpper department) now avisos hrest
  unfold scrape_department_avisos
  omega

/-- A concrete batch of five raw records; the third has a malformed
`fechaInicio`, the others parse and stay non-expired at time 0. -/
def c7Batch : List AvisoData :=
  [ { id := 1, numero := "101", titulo := "Aviso de lluvias", descripcion := "d1",
      fechaEmision := "17/11/2025 10:00:00", fechaInicio := "18/11/2025 00:00:00",
      fechaFin := "19/11/2025 00:00:00", nivel := "2", colorNivel := "NARANJA" },
    { id := 2, numero := "102", titulo := "Aviso de vientos", descripcion := "d2",
      fechaEmision := "17/11/2025 11:00:00", fechaInicio := "18/11/2025 06:00:00",
      fechaFin := "20/11/2025 00:00:00", nivel := "3", colorNivel := "ROJO" },
    { id := 3, numero := "103", titulo := "Aviso de nevadas", descripcion := "d3",
      fechaEmision := "17/11/2025 12:00:00", fechaInicio := "not a date",
      fechaFin := "21/11/2025 00:00:00", nivel := "2", colorNivel := "AMARILLO" },
    { id := 4, numero := "104", titulo := "Aviso de oleajes", descripcion := "d4",
      fechaEmision := "17/11/2025 13:00:00", fechaInicio := "19/11/2025 00:00:00",
      fechaFin := "20/11/2025 12:00:00", nivel := "1", colorNivel := "VERDE" },
    { id := 5, numero := "105", titulo := "Aviso de friaje", descripcion := "d5",
      fechaEmision := "17/11/2025 14:00:00", fechaInicio := "20/11/2025 00:00:00",
      fechaFin := "22/11/2025 00:00:00", nivel := "4", colorNivel := "" } ]

/-- Witness for C7: the concrete batch of 5 with 1 malformed date yields
exactly 4 normalized warnings. -/
theorem C7_witness :
    (c7Batch.filter (fun a => decide (malformedTimestamp a))).length = 1 ∧
    (∀ a ∈ c7Batch, ¬malformedTimestamp a →
      (parse_warning a (pyUpper "LIMA") 0).isSome = true) ∧
    (scrape_department_avisos c7Batch "LIMA" 0).length = c7Batch.length - 1 :=
  ⟨by decide, by decide,
    C7_partial_batch_resilience c7Batch "LIMA" 0 1 (by decide) (by decide)⟩

/-- Reconciliation key of a warning: `(warning_number, department)`. -/
def wkey (w : Warning) : String × String :=
  (w.warning_number, w.department)

/-- Embedding of the dedup loop of `WarningScraper.scrape_warnings`
(`app/scrapers/warning_scraper.py` lines 161-174): a key already in
`seen_combinations` is skipped, otherwise the warning is appended and its
key recorded. -/
def dedupByKey : List Warning → List (String × String) → List Warning
  | [], _ => []
  | w :: rest, seen =>
    if wkey w ∈ seen then dedupByKey rest seen
    else w :: dedupByKey rest (wkey w :: seen)

/-- Sort relation of `scrape_warnings` line 177: `issued_at` most recent
first. -/
def issuedDesc (a b : Warning) : Prop :=
  b.issued_at ≤ a.issued_at

instance : DecidableRel issuedDesc := fun a b => by
  unfold issuedDesc
  infer_instance

/-- Embedding of `WarningScraper.scrape_warnings`
(`app/scrapers/warning_scraper.py` lines 154-180) applied to the
concatenation `ws` of the per-department results, departments in requested
order and upstream response order within each department: first-wins dedup
by `(warning_number, department)`, then a sort by `issued_at` descending
(Python's stable sort modelled by insertion sort). -/
def scrape_warnings_batch (ws : List Warning) : List Warning :=
  List.insertionSort issuedDesc (dedupByKey ws [])

/-- Once a key is recorded as seen, the dedup output never contains it. -/
theorem dedup_filter_of_seen (k : String × String) :
    ∀ (ws : List Warning) (seen : List (String × String)), k ∈ seen →
      (dedupByKey ws seen).filter (fun x => decide (wkey x = k)) = []
  | [], _, _ => rfl
  | w :: rest, seen, hk => by
    unfold dedupByKey
    by_cases hmem : wkey w ∈ seen
    · simp only [if_pos hmem]
      exact dedup_filter_of_seen k rest seen hk
    · simp only [if_neg hmem]
      have hne : ¬(wkey w = k) := fun he => hmem (he ▸ hk)
      rw [List.filter_cons]
      simp only [hne, decide_False, if_false]
      exact dedup_filter_of_seen k rest (wkey w :: seen) (List.mem_cons_of_mem _ hk)

/-- For an unseen key, the dedup output keeps exactly the first occurrence
of that key, in input order. -/
theorem dedup_filter_first (k : String × String) (w : Warning) :
    ∀ (ws : List Warning) (seen : List (String × String)), k ∉ seen →
      ws.find? (fun x => decide (wkey x = k)) = some w →
      (dedupByKey ws seen).filter (fun x => decide (wkey x = k)) = [w] := by
  intro ws
  induction ws with
  | nil =>
    intro seen hk hfind
    simp at hfind
  | cons a rest ih =>
    intro seen hk hfind
    by_cases hka : wkey a = k
    · have hpa : decide (wkey a = k) = true := by simp [hka]
      have haw : a = w := by
        simp only [List.find?_cons, hpa] at hfind
        exact Option.some.inj hfind
      subst haw
      unfold dedupByKey
      have hmem : wkey a ∉ seen := fun hc => hk (hka ▸ hc)
      simp only [if_neg hmem]
      rw [List.filter_cons]
      simp only [hpa, if_true]
      rw [dedup_filter_of_seen k rest (wkey a :: seen) (by simp [hka])]
    · have hpa : decide (wkey a = k) = false := by simp [hka]
      have hfind2 : rest.find? (fun x => decide (wkey x = k)) = some w := by
        simpa only [List.find?_cons, hpa] using hfind
      unfold dedupByKey
      by_cases hmem : wkey a ∈ seen
      · simp only [if_pos hmem]
        exact ih seen hk hfind2
      · simp only [if_neg hmem]
        rw [List.filter_cons]
        simp only [hpa, if_false]
        have hk2 : k ∉ wkey a :: seen := by
          intro hc
          rcases List.mem_cons.mp hc with hc | hc
          · exact hka hc.symm
          · exact hk hc
        exact ih (wkey a :: seen) hk2 hfind2

/-- C5: within one scrape pass, a key that occurs in the input keeps
exactly one warning in the returned batch, namely its first occurrence in
input order (the `find?` result), and duplicate keys are not an error. -/
theorem C5_first_wins (ws : List Warning) (k : String × String) (w : Warning)
    (h : ws.find? (fun x => decide (wkey x = k)) = some w) :
    (scrape_warnings_batch ws).filter (fun x => decide (wkey x = k)) = [w] := by
  have hperm : (scrape_warnings_batch ws).Perm (dedupByKey ws []) :=
    List.perm_insertionSort issuedDesc _
  have hf := hperm.filter (fun x => decide (wkey x = k))
  rw [dedup_filter_first k w ws [] (by simp) h] at hf
  exact List.perm_singleton.mp hf

/-- First occurrence of key (418, LIMA) in the C5 witness batch. -/
def c5First : Warning :=
  { senamhi_id := 1, warning_number := "418", department := "LIMA",
    severity := WarningSeverity.ORANGE, status := WarningStatus.VIGENTE,
    title := "first", description := "a", valid_from := 0, valid_until := 100,
    issued_at := 50, scraped_at := 60 }

/-- A batch with a duplicated (418, LIMA) key; the duplicate is issued
later so the naive sort would place it first if it survived dedup. -/
def c5Batch : List Warning :=
  [ c5First,
    { senamhi_id := 2, warning_number := "418", department := "LIMA",
      severity := WarningSeverity.RED, status := WarningStatus.VIGENTE,
      title := "second", description := "b", valid_from := 0, valid_until := 100,
      issued_at := 99, scraped_at := 60 },
    { senamhi_id := 3, warning_number := "419", department := "CUSCO",
      severity := WarningSeverity.YELLOW, status := WarningStatus.EMITIDO,
      title := "other", description := "c", valid_from := 10, valid_until := 100,
      issued_at := 70, scraped_at := 60 } ]

/-- Witness for C5 on the concrete duplicated batch. -/
theorem C5_witness :
    c5Batch.find? (fun x => decide (wkey x = ("418", "LIMA"))) = some c5First ∧
    (scrape_warnings_batch c5Batch).filter
      (fun x => decide (wkey x = ("418", "LIMA"))) = [c5First] :=
  ⟨by decide, C5_first_wins c5Batch ("418", "LIMA") c5First (by decide)⟩

/-- Stored warning row, from `app/storage/models.py` (`WarningAlert`); the
status and severity enum snapshots stand for the string values written by
`save_warning`. -/
structure WarningRow where
  id : Nat
  senamhi_id : Int
  warning_number : String
  department : String
  severity : WarningSeverity
  status : WarningStatus
  title : String
  description : String
  valid_from : Int
  valid_until : Int
  issued_at : Int
  scraped_at : Int
deriving DecidableEq, Repr

/-- Warnings table state: rows in insertion order plus the id sequence. -/
structure DB where
  rows : List WarningRow
  nextId : Nat
deriving DecidableEq, Repr

/-- The exact-key filter of `save_warning` (`app/storage/crud.py` lines
250-257). -/
def warnKeyMatch (w : Warning) (r : WarningRow) : Bool :=
  decide (r.warning_number = w.warning_number ∧ r.department = w.department)

/-- In-place mutation of the first row satisfying `p`, the model of a
SQLAlchemy update of the object returned by `.first()`. -/
def updateFirst {α : Type} (p : α → Bool) (f : α → α) : List α → List α
  | [] => []
  | r :: rest => if p r then f r :: rest else r :: updateFirst p f rest

/-- Field assignments of the update branch of `save_warning`
(`app/storage/crud.py` lines 259-268): every mutable field is overwritten,
identity fields and the row id are untouched. -/
def applyWarning (w : Warning) (r : WarningRow) : WarningRow :=
  { r with
    senamhi_id := w.senamhi_id
    severity := w.severity
    status := w.status
    title := w.title
    description := w.description
    valid_from := w.valid_from
    valid_until := w.valid_until
    issued_at := w.issued_at
    scraped_at := w.scraped_at }

/-- Row built by the insert branch of `save_warning`
(`app/storage/crud.py` lines 274-290). -/
def newWarningRow (id : Nat) (w : Warning) : WarningRow :=
  { id := id
    senamhi_id := w.senamhi_id
    warning_number := w.warning_number
    department := w.department
    severity := w.severity
    status := w.status
    title := w.title
    description := w.description
    valid_from := w.valid_from
    valid_until := w.valid_until
    issued_at := w.issued_at
    scraped_at := w.scraped_at }

/-- Embedding of `save_warning` (`app/storage/crud.py` lines 247-292):
look up the existing row by exact `(warning_number, department)` match;
update it in place when present, insert a fresh row otherwise. There is no
force flag at this layer and no skip path. -/
def save_warning (db : DB) (w : Warning) : DB × WarningRow :=
  match db.rows.find? (warnKeyMatch w) with
  | some r =>
    ({ db with rows := updateFirst (warnKeyMatch w) (applyWarning w) db.rows },
      applyWarning w r)
  | none =>
    ({ rows := db.rows ++ [newWarningRow db.nextId w], nextId := db.nextId + 1 },
      newWarningRow db.nextId w)

/-- Embedding of `get_warning_by_number` (`app/storage/crud.py` lines
342-352) with the department filter the service always supplies; note the
department is upper-cased here, unlike in `save_warning`. -/
def get_warning_by_number (db : DB) (num dept : String) : Option WarningRow :=
  db.rows.find? (fun r => decide (r.warning_number = num ∧ r.department = pyUpper dept))

/-- A successful `find?` splits the list at the first satisfying element. -/
theorem find?_decomp {α : Type} (p : α → Bool) :
    ∀ (l : List α) (r : α), l.find? p = some r →
      ∃ pre post, l = pre ++ r :: post ∧ (∀ x ∈ pre, p x = false) ∧ p r = true
  | [], r, h => by simp at h
  | a :: rest, r, h => by
    by_cases hpa : p a = true
    · rw [List.find?_cons_of_pos _ hpa] at h
      exact ⟨[], rest, by simp [Option.some.inj h], by simp, (Option.some.inj h) ▸ hpa⟩
    · rw [List.find?_cons_of_neg _ (by simpa using hpa)] at h
      obtain ⟨pre, post, hsplit, hpre, hr⟩ := find?_decomp p rest r h
      exact ⟨a :: pre, post, by simp [hsplit], by
        intro x hx
        rcases List.mem_cons.mp hx with hx | hx
        · subst hx; simpa using hpa
        · exact hpre x hx, hr⟩

/-- `updateFirst` rewrites exactly the first satisfying element. -/
theorem updateFirst_decomp {α : Type} (p : α → Bool) (f : α → α) (r : α) :
    ∀ (pre post : List α), (∀ x ∈ pre, p x = false) → p r = true →
      updateFirst p f (pre ++ r :: post) = pre ++ f r :: post
  | [], post, _, hr => by simp [updateFirst, hr]
  | a :: pre, post, hpre, hr => by
    have ha : p a = false := hpre a (List.mem_cons_self a pre)
    simp only [List.cons_append, updateFirst, ha, Bool.false_eq_true, if_false,
      List.cons.injEq, true_and]
    exact updateFirst_decomp p f r pre post
      (fun x hx => hpre x (List.mem_cons_of_mem _ hx)) hr

/-- C10: the storage-level `save_warning` never skips: when a row with the
warning's exact key exists, that row (and only that row) is overwritten in
place, every mutable field taking the incoming warning's value, while the
row id and identity key survive; the force policy lives only in the
service layer. -/
theorem C10_save_warning_overwrites (db : DB) (w : Warning) (r : WarningRow)
    (h : db.rows.find? (warnKeyMatch w) = some r) :
    ∃ pre post,
      db.rows = pre ++ r :: post ∧
      (save_warning db w).1.rows = pre ++ applyWarning w r :: post ∧
      (save_warning db w).1.rows.length = db.rows.length ∧
      (applyWarning w r).senamhi_id = w.senamhi_id ∧
      (applyWarning w r).severity = w.severity ∧
      (applyWarning w r).status = w.status ∧
      (applyWarning w r).title = w.title ∧
      (applyWarning w r).description = w.description ∧
      (applyWarning w r).valid_from = w.valid_from ∧
      (applyWarning w r).valid_until = w.valid_until ∧
      (applyWarning w r).issued_at = w.issued_at ∧
      (applyWarning w r).scraped_at = w.scraped_at ∧
      (applyWarning w r).id = r.id ∧
      (applyWarning w r).warning_number = r.warning_number ∧
      (applyWarning w r).department = r.department := by
  obtain ⟨pre, post, hsplit, hpre, hr⟩ := find?_decomp (warnKeyMatch w) db.rows r h
  refine ⟨pre, post, hsplit, ?_, ?_, rfl, rfl, rfl, rfl, rfl, rfl, rfl, rfl, rfl, rfl,
    rfl, rfl⟩
  · unfold save_warning
    rw [h]
    simp only [hsplit]
    exact updateFirst_decomp (warnKeyMatch w) (applyWarning w) r pre post hpre hr
  · unfold save_warning
    rw [h]
    simp only [hsplit]
    rw [updateFirst_decomp (warnKeyMatch w) (applyWarning w) r pre post hpre hr]
    simp

/-- Concrete stored row for the C10 and C2 witnesses. -/
def rowLima : WarningRow :=
  { id := 1, senamhi_id := 7, warning_number := "418", department := "LIMA",
    severity := WarningSeverity.YELLOW, status := WarningStatus.EMITIDO,
    title := "original title", description := "orig", valid_from := 0,
    valid_until := 100, issued_at := 5, scraped_at := 6 }

/-- Concrete incoming warning with the same key and different data. -/
def wLima : Warning :=
  { senamhi_id := 8, warning_number := "418", department := "LIMA",
    severity := WarningSeverity.RED, status := WarningStatus.VIGENTE,
    title := "new title", description := "new", valid_from := 1,
    valid_until := 200, issued_at := 9, scraped_at := 10 }

/-- Witness for C10 at the concrete one-row database. -/
theorem C10_witness :
    ∃ pre post,
      (DB.mk [rowLima] 2).rows = pre ++ rowLima :: post ∧
      (save_warning (DB.mk [rowLima] 2) wLima).1.rows
        = pre ++ applyWarning wLima rowLima :: post ∧
      (save_warning (DB.mk [rowLima] 2) wLima).1.rows.length
        = (DB.mk [rowLima] 2).rows.length ∧
      (applyWarning wLima rowLima).senamhi_id = wLima.senamhi_id ∧
      (applyWarning wLima rowLima).severity = wLima.severity ∧
      (applyWarning wLima rowLima).status = wLima.status ∧
      (applyWarning wLima rowLima).title = wLima.title ∧
      (applyWarning wLima rowLima).description = wLima.description ∧
      (applyWarning wLima rowLima).valid_from = wLima.valid_from ∧
      (applyWarning wLima rowLima).valid_until = wLima.valid_until ∧
      (applyWarning wLima rowLima).issued_at = wLima.issued_at ∧
      (applyWarning wLima rowLima).scraped_at = wLima.scraped_at ∧
      (applyWarning wLima rowLima).id = rowLima.id ∧
      (applyWarning wLima rowLima).warning_number = rowLima.warning_number ∧
      (applyWarning wLima rowLima).department = rowLima.department :=
  C10_save_warning_overwrites (DB.mk [rowLima] 2) wLima rowLima (by decide)

/-- Result dict of `WeatherService.update_warnings`. -/
structure UpdateResult where
  success : Bool
  found : Nat
  saved : Nat
  updated : Nat
deriving DecidableEq, Repr

/-- Loop body of `WeatherService.update_warnings`
(`app/services/weather_service.py` lines 126-139): an existing key is
skipped without force, saved and counted as an update with force, and a
missing key is saved and counted as an insert. -/
def update_warnings_go (force : Bool) : DB → List Warning → Nat → Nat → Nat → DB × UpdateResult
  | db, [], found, saved, updated =>
    (db, { success := true, found := found, saved := saved, updated := updated })
  | db, w :: rest, found, saved, updated =>
    match get_warning_by_number db w.warning_number w.department with
    | some _ =>
      if force then
        update_warnings_go force ((save_warning db w).1) rest found saved (updated + 1)
      else
        update_warnings_go force db rest found saved updated
    | none =>
      update_warnings_go force ((save_warning db w).1) rest found (saved + 1) updated

/-- Embedding of `WeatherService.update_warnings`
(`app/services/weather_service.py` lines 103-146) applied to the scraped
batch `ws`. -/
def update_warnings (db : DB) (ws : List Warning) (force : Bool) : DB × UpdateResult :=
  if ws.isEmpty then
    (db, { success := true, found := 0, saved := 0, updated := 0 })
  else
    update_warnings_go force db ws ws.length 0 0

/-- Without force the update loop only appends new rows and never counts
an update, provided departments are upper-cased as the scraper produces
them. -/
theorem update_warnings_go_no_force :
    ∀ (ws : List Warning) (db : DB) (found saved updated : Nat),
      (∀ w ∈ ws, pyUpper w.department = w.department) →
      (∃ inserted, (update_warnings_go false db ws found saved updated).1.rows
          = db.rows ++ inserted) ∧
      (update_warnings_go false db ws found saved updated).2.updated = updated
  | [], db, found, saved, updated, _ => ⟨⟨[], by simp [update_warnings_go]⟩, rfl⟩
  | w :: rest, db, found, saved, updated, hup => by
    have hupr : ∀ x ∈ rest, pyUpper x.department = x.department :=
      fun x hx => hup x (List.mem_cons_of_mem _ hx)
    cases hex : get_warning_by_number db w.warning_number w.department with
    | some r =>
      simp only [update_warnings_go, hex, Bool.false_eq_true, if_false]
      exact update_warnings_go_no_force rest db found saved updated hupr
    | none =>
      simp only [update_warnings_go, hex]
      have hkey : db.rows.find? (warnKeyMatch w) = none := by
        unfold get_warning_by_number at hex
        unfold warnKeyMatch
        simp only [hup w (List.mem_cons_self w rest)] at hex
        exact hex
      have hsave : (save_warning db w).1.rows = db.rows ++ [newWarningRow db.nextId w] := by
        unfold save_warning
        rw [hkey]
      obtain ⟨⟨inserted, hins⟩, hupd⟩ :=
        update_warnings_go_no_force rest ((save_warning db w).1) found (saved + 1) updated hupr
      refine ⟨⟨newWarningRow db.nextId w :: inserted, ?_⟩, hupd⟩
      rw [hins, hsave, List.append_assoc]
      rfl

/-- C2: running the warnings update without force leaves every stored row
in place and unchanged (the final rows are the old rows plus appended
inserts only, so any warning whose key already has a stored row keeps that
row byte for byte, title included) and the result reports zero updates;
applied twice, the first fetch's data therefore stays in place. -/
theorem C2_no_force_skip (db : DB) (ws : List Warning)
    (hup : ∀ w ∈ ws, pyUpper w.department = w.department) :
    (∃ inserted, (update_warnings db ws false).1.rows = db.rows ++ inserted) ∧
    (update_warnings db ws false).2.updated = 0 := by
  unfold update_warnings
  by_cases hw : ws.isEmpty
  · simp only [hw, if_true]
    exact ⟨⟨[], by simp⟩, by simp⟩
  · simp only [hw, Bool.false_eq_true, if_false]
    exact update_warnings_go_no_force ws db ws.length 0 0 hup

/-- Witness for C2: a second fetch of (418, LIMA) without force at a store
that already holds the row. -/
theorem C2_witness :
    (∀ w ∈ [wLima], pyUpper w.department = w.department) ∧
    ((∃ inserted, (update_warnings (DB.mk [rowLima] 2) [wLima] false).1.rows
        = (DB.mk [rowLima] 2).rows ++ inserted) ∧
     (update_warnings (DB.mk [rowLima] 2) [wLima] false).2.updated = 0) :=
  ⟨by decide, C2_no_force_skip (DB.mk [rowLima] 2) [wLima] (by decide)⟩

/-- Stored geometry row, from `app/storage/geo_models.py`
(`WarningGeometry`); the WKT text stands for the stored geometry value. -/
structure GeometryRow where
  id : Nat
  warning_id : Int
  warning_number : String
  day_number : Int
  nivel : Int
  geometry : String
  shapefile_url : Option String
  shapefile_path : Option String
  downloaded_at : Int
  updated_at : Option Int
deriving DecidableEq, Repr

/-- Geometry table state. -/
structure GeoDB where
  rows : List GeometryRow
  nextId : Nat
deriving DecidableEq, Repr

/-- The `(warning_number, day_number, nivel)` filter of
`save_warning_geometry` (`app/storage/geo_crud.py` lines 33-42). -/
def geoKeyMatch (num : String) (day nivel : Int) (g : GeometryRow) : Bool :=
  decide (g.warning_number = num ∧ g.day_number = day ∧ g.nivel = nivel)

/-- Field assignments of the update branch of `save_warning_geometry`
(`app/storage/geo_crud.py` lines 44-53). -/
def applyGeometry (geometry : String) (url path : Option String) (now : Int)
    (g : GeometryRow) : GeometryRow :=
  { g with
    geometry := geometry
    shapefile_url := url
    shapefile_path := path
    downloaded_at := now
    updated_at := some now }

/-- Row built by the insert branch of `save_warning_geometry`
(`app/storage/geo_crud.py` lines 55-69). -/
def newGeometryRow (id : Nat) (wid : Int) (num : String) (day nivel : Int)
    (geometry : String) (url path : Option String) (now : Int) : GeometryRow :=
  { id := id
    warning_id := wid
    warning_number := num
    day_number := day
    nivel := nivel
    geometry := geometry
    shapefile_url := url
    shapefile_path := path
    downloaded_at := now
    updated_at := none }

/-- Embedding of `save_warning_geometry` (`app/storage/geo_crud.py` lines
16-71): a no-op without PostGIS, otherwise an upsert keyed by
`(warning_number, day_number, nivel)` — update the first matching row in
place, or insert a fresh one. -/
def save_warning_geometry (postgis : Bool) (db : GeoDB) (wid : Int) (num : String)
    (day : Int) (geometry : String) (nivel : Int) (url path : Option String)
    (now : Int) : GeoDB × Option GeometryRow :=
  if postgis = false then (db, none)
  else
    match db.rows.find? (geoKeyMatch num day nivel) with
    | some g =>
      ({ db with rows := (updateFirst (geoKeyMatch num day nivel)
          (applyGeometry geometry url path now) db.rows) },
        some (applyGeometry geometry url path now g))
    | none =>
      ({ rows := db.rows ++ [newGeometryRow db.nextId wid num day nivel geometry url path now],
         nextId := db.nextId + 1 },
        some (newGeometryRow db.nextId wid num day nivel geometry url path now))

/-- Pairwise key distinctness: at most one stored geometry row per
`(warning_number, day_number, nivel)` triple. -/
def distinctGeoKeys (rows : List GeometryRow) : Prop :=
  List.Pairwise (fun a b =>
    ¬(a.warning_number = b.warning_number ∧ a.day_number = b.day_number ∧
      a.nivel = b.nivel)) rows

/-- One geometry save request, for iterating save sequences. -/
structure GeoSaveReq where
  warning_id : Int
  warning_number : String
  day_number : Int
  geometry : String
  nivel : Int
  shapefile_url : Option String
  shapefile_path : Option String
  now : Int
deriving DecidableEq, Repr

/-- A sequence of geometry saves against a PostGIS-backed store. -/
def applyGeoSaves (db : GeoDB) (reqs : List GeoSaveReq) : GeoDB :=
  reqs.foldl
    (fun d q => (save_warning_geometry true d q.warning_id q.warning_number
      q.day_number q.geometry q.nivel q.shapefile_url q.shapefile_path q.now).1) db

/-- One geometry save preserves key distinctness. -/
theorem save_geometry_preserves_distinct (db : GeoDB) (wid : Int) (num : String)
    (day : Int) (geom : String) (nivel : Int) (url path : Option String) (now : Int)
    (hinv : distinctGeoKeys db.rows) :
    distinctGeoKeys
      (save_warning_geometry true db wid num day geom nivel url path now).1.rows := by
  unfold save_warning_geometry
  simp only [Bool.true_eq_false, if_false]
  cases hex : db.rows.find? (geoKeyMatch num day nivel) with
  | some g =>
    obtain ⟨pre, post, hsplit, hpre, hg⟩ := find?_decomp (geoKeyMatch num day nivel) db.rows g hex
    simp only [hsplit]
    rw [updateFirst_decomp (geoKeyMatch num day nivel) (applyGeometry geom url path now)
      g pre post hpre hg]
    rw [hsplit] at hinv
    unfold distinctGeoKeys at hinv ⊢
    simp only [List.pairwise_append, List.pairwise_cons, List.mem_cons] at hinv ⊢
    obtain ⟨h1, ⟨h2, h3⟩, h4⟩ := hinv
    refine ⟨h1, ⟨fun b hb => h2 b hb, h3⟩, ?_⟩
    intro a ha b hb
    rcases hb with hb | hb
    · subst hb
      exact h4 a ha g (Or.inl rfl)
    · exact h4 a ha b (Or.inr hb)
  | none =>
    unfold distinctGeoKeys at hinv ⊢
    rw [List.pairwise_append]
    refine ⟨hinv, by simp, ?_⟩
    intro a ha b hb
    have hb2 : b = newGeometryRow db.nextId wid num day nivel geom url path now := by
      simpa using hb
    subst hb2
    have hnone := List.find?_eq_none.mp hex a ha
    unfold geoKeyMatch at hnone
    simp only [decide_eq_true_eq] at hnone
    simpa [newGeometryRow] using hnone

/-- Any sequence of geometry saves started from a distinct-key store keeps
keys distinct. -/
theorem applyGeoSaves_distinct :
    ∀ (reqs : List GeoSaveReq) (db : GeoDB), distinctGeoKeys db.rows →
      distinctGeoKeys (applyGeoSaves db reqs).rows
  | [], _, h => h
  | q :: rest, db, h =>
    applyGeoSaves_distinct rest _
      (save_geometry_preserves_distinct db q.warning_id q.warning_number q.day_number
        q.geometry q.nivel q.shapefile_url q.shapefile_path q.now h)

/-- C3: geometry saves are upserts keyed by
`(warning_number, day_number, nivel)`: from a store with at most one row
per triple, a save keeps that invariant; saving an existing triple rewrites
that row in place (same position, same count, geometry replaced, key
untouched); saving an absent triple appends exactly one new row; and any
sequence of saves from the empty store keeps at most one row per triple. -/
theorem C3_geometry_key_integrity (db : GeoDB) (wid : Int) (num : String) (day : Int)
    (geom : String) (nivel : Int) (url path : Option String) (now : Int)
    (hinv : distinctGeoKeys db.rows) :
    distinctGeoKeys
      (save_warning_geometry true db wid num day geom nivel url path now).1.rows ∧
    (∀ g, db.rows.find? (geoKeyMatch num day nivel) = some g →
      ∃ pre post,
        db.rows = pre ++ g :: post ∧
        (save_warning_geometry true db wid num day geom nivel url path now).1.rows
          = pre ++ applyGeometry geom url path now g :: post ∧
        (save_warning_geometry true db wid num day geom nivel url path now).1.rows.length
          = db.rows.length ∧
        (applyGeometry geom url path now g).geometry = geom ∧
        (applyGeometry geom url path now g).warning_number = g.warning_number ∧
        (applyGeometry geom url path now g).day_number = g.day_number ∧
        (applyGeometry geom url path now g).nivel = g.nivel) ∧
    (db.rows.find? (geoKeyMatch num day nivel) = none →
      (save_warning_geometry true db wid num day geom nivel url path now).1.rows
        = db.rows ++ [newGeometryRow db.nextId wid num day nivel geom url path now] ∧
      (save_warning_geometry true db wid num day geom nivel url path now).1.rows.length
        = db.rows.length + 1) ∧
    (∀ reqs : List GeoSaveReq, distinctGeoKeys (applyGeoSaves (GeoDB.mk [] 0) reqs).rows) := by
  refine ⟨save_geometry_preserves_distinct db wid num day geom nivel url path now hinv,
    ?_, ?_, fun reqs => applyGeoSaves_distinct reqs (GeoDB.mk [] 0) List.Pairwise.nil⟩
  · intro g hfound
    obtain ⟨pre, post, hsplit, hpre, hg⟩ :=
      find?_decomp (geoKeyMatch num day nivel) db.rows g hfound
    have hrows : (save_warning_geometry true db wid num day geom nivel url path now).1.rows
        = pre ++ applyGeometry geom url path now g :: post := by
      unfold save_warning_geometry
      simp only [Bool.true_eq_false, if_false]
      rw [hfound]
      simp only [hsplit]
      exact updateFirst_decomp (geoKeyMatch num day nivel)
        (applyGeometry geom url path now) g pre post hpre hg
    refine ⟨pre, post, hsplit, hrows, ?_, rfl, rfl, rfl, rfl⟩
    rw [hrows, hsplit]
    simp
  · intro hnone
    have hrows : (save_warning_geometry true db wid num day geom nivel url path now).1.rows
        = db.rows ++ [newGeometryRow db.nextId wid num day nivel geom url path now] := by
      unfold save_warning_geometry
      simp only [Bool.true_eq_false, if_false]
      rw [hnone]
    exact ⟨hrows, by rw [hrows]; simp⟩

/-- Witness for C3 at the empty geometry store. -/
theorem C3_witness :
    distinctGeoKeys
      (save_warning_geometry true (GeoDB.mk [] 0) 1 "418" 1 "MP1" 2 none none 0).1.rows ∧
    (∀ g, (GeoDB.mk [] 0).rows.find? (geoKeyMatch "418" 1 2) = some g →
      ∃ pre post,
        (GeoDB.mk [] 0).rows = pre ++ g :: post ∧
        (save_warning_geometry true (GeoDB.mk [] 0) 1 "418" 1 "MP1" 2 none none 0).1.rows
          = pre ++ applyGeometry "MP1" none none 0 g :: post ∧
        (save_warning_geometry true (GeoDB.mk [] 0) 1 "418" 1 "MP1" 2 none none 0).1.rows.length
          = (GeoDB.mk [] 0).rows.length ∧
        (applyGeometry "MP1" none none 0 g).geometry = "MP1" ∧
        (applyGeometry "MP1" none none 0 g).warning_number = g.warning_number ∧
        (applyGeometry "MP1" none none 0 g).day_number = g.day_number ∧
        (applyGeometry "MP1" none none 0 g).nivel = g.nivel) ∧
    ((GeoDB.mk [] 0).rows.find? (geoKeyMatch "418" 1 2) = none →
      (save_warning_geometry true (GeoDB.mk [] 0) 1 "418" 1 "MP1" 2 none none 0).1.rows
        = (GeoDB.mk [] 0).rows ++ [newGeometryRow 0 1 "418" 1 2 "MP1" none none 0] ∧
      (save_warning_geometry true (GeoDB.mk [] 0) 1 "418" 1 "MP1" 2 none none 0).1.rows.length
        = (GeoDB.mk [] 0).rows.length + 1) ∧
    (∀ reqs : List GeoSaveReq, distinctGeoKeys (applyGeoSaves (GeoDB.mk [] 0) reqs).rows) :=
  C3_geometry_key_integrity (GeoDB.mk [] 0) 1 "418" 1 "MP1" 2 none none 0
    (by unfold distinctGeoKeys; exact List.Pairwise.nil)

/-- Sort key of `get_active_warnings` (`app/storage/crud.py` lines
312-317): status priority (VIGENTE first) then absolute distance of
`valid_from` from now, in seconds. -/
def activeSortKey (now : Int) (r : WarningRow) : Int × Int :=
  ((if r.status = WarningStatus.VIGENTE then 0 else 1), |r.valid_from - now|)

/-- Lexicographic comparison of the Python sort-key tuples. -/
def pairLE (p q : Int × Int) : Prop :=
  p.1 < q.1 ∨ (p.1 = q.1 ∧ p.2 ≤ q.2)

instance (p q : Int × Int) : Decidable (pairLE p q) := by
  unfold pairLE
  infer_instance

/-- Row ordering used by the sorted listing. -/
def activeLE (now : Int) (a b : WarningRow) : Prop :=
  pairLE (activeSortKey now a) (activeSortKey now b)

instance (now : Int) : DecidableRel (activeLE now) := fun a b => by
  unfold activeLE
  infer_instance

/-- Status-and-window filter of `get_active_warnings`
(`app/storage/crud.py` lines 302-305). -/
def activeFilter (now : Int) (db : DB) : List WarningRow :=
  db.rows.filter (fun r =>
    decide ((r.status = WarningStatus.EMITIDO ∨ r.status = WarningStatus.VIGENTE) ∧
      now ≤ r.valid_until))

/-- Embedding of `get_active_warnings` (`app/storage/crud.py` lines
295-319): keep stored EMITIDO or VIGENTE snapshots that have not expired,
optionally restrict to one department, and sort by the key above (Python's
stable `sorted` modelled by insertion sort). -/
def get_active_warnings (db : DB) (department : Option String) (now : Int) :
    List WarningRow :=
  match department with
  | some d =>
    List.insertionSort (activeLE now)
      ((activeFilter now db).filter (fun r => decide (r.department = pyUpper d)))
  | none => List.insertionSort (activeLE now) (activeFilter now db)

/-- C8: the active listing never contains a VENCIDO row, every VIGENTE row
comes before every EMITIDO row, and rows of equal status are ordered by
ascending absolute time-distance of `valid_from` from now. -/
theorem C8_active_listing (db : DB) (department : Option String) (now : Int) :
    (∀ r ∈ get_active_warnings db department now, r.status ≠ WarningStatus.VENCIDO) ∧
    (get_active_warnings db department now).Pairwise (fun a b =>
      ¬(a.status = WarningStatus.EMITIDO ∧ b.status = WarningStatus.VIGENTE) ∧
      (a.status = b.status → |a.valid_from - now| ≤ |b.valid_from - now|)) := by
  haveI hTot : IsTotal WarningRow (activeLE now) := by
    constructor
    intro a b
    unfold activeLE pairLE
    omega
  haveI hTrans : IsTrans WarningRow (activeLE now) := by
    constructor
    intro a b c hab hbc
    unfold activeLE pairLE at hab hbc ⊢
    omega
  constructor
  · intro r hr
    have hbase : r ∈ activeFilter now db := by
      unfold get_active_warnings at hr
      cases department with
      | none =>
        rw [List.mem_insertionSort] at hr
        exact hr
      | some d =>
        rw [List.mem_insertionSort] at hr
        exact (List.mem_filter.mp hr).1
    have hp := (List.mem_filter.mp hbase).2
    simp only [decide_eq_true_eq] at hp
    rcases hp.1 with h | h <;> simp [h]
  · have hs : (get_active_warnings db department now).Pairwise (activeLE now) := by
      unfold get_active_warnings
      cases department with
      | none => exact List.sorted_insertionSort (activeLE now) _
      | some d => exact List.sorted_insertionSort (activeLE now) _
    refine hs.imp ?_
    intro a b hab
    constructor
    · rintro ⟨ha, hb⟩
      unfold activeLE pairLE activeSortKey at hab
      rw [ha, hb] at hab
      simp only [reduceCtorEq, if_false, if_true] at hab
      omega
    · intro hst
      unfold activeLE pairLE activeSortKey at hab
      rw [hst] at hab
      rcases hab with hab | hab
      · omega
      · exact hab.2

/-- Outcome of one attempt of the retry loop of `run_forecast_scrape_job`
(`app/scheduler/jobs.py` lines 47-92): `update_forecasts` returns a
success dict, a skipped dict, or a failure dict, or the attempt raises; a
success whose follow-up `populate_coordinates` call raises leaves the
success dict assigned but continues the loop. -/
inductive AttemptOutcome where
  | success (locations saved : Nat)
  | skipped (locations : Nat) (msg : String)
  | failure (err : String)
  | exn (err : String)
  | successThenExn (locations saved : Nat) (err : String)
deriving DecidableEq, Repr

/-- ScrapeRun status values written by the job. -/
inductive RunStatus where
  | running
  | success
  | skipped
  | failed
deriving DecidableEq, Repr

/-- Observable storage and network events of one job execution:
`create_scrape_run`, a fetch attempt, and `update_scrape_run` with the
recorded counts and error message. -/
inductive JobEvent where
  | createRun (status : RunStatus)
  | fetchAttempt
  | updateRun (status : RunStatus) (locations forecasts : Nat)
      (error_message : Option String)
deriving DecidableEq, Repr

/-- The `result` variable of the loop: the last dict assigned, either a
success dict with its counts or a failure dict. -/
inductive FetchResult where
  | ok (locations saved : Nat)
  | err (msg : String)
deriving DecidableEq, Repr

/-- Embedding of the retry loop and terminal decision of
`run_forecast_scrape_job` (`app/scheduler/jobs.py` lines 44-112): success
breaks and the run is marked success with the result counts; a skipped
result updates the run to skipped and returns; failures and exceptions
record the last error and continue; once attempts are exhausted the run is
marked failed with the last error when no success dict is held. -/
def forecastLoop : List AttemptOutcome → Option FetchResult → Option String → List JobEvent
  | [], result, lastErr =>
    match result with
    | some (FetchResult.ok l s) => [JobEvent.updateRun RunStatus.success l s none]
    | _ => [JobEvent.updateRun RunStatus.failed 0 0 lastErr]
  | a :: rest, result, lastErr =>
    match a with
    | AttemptOutcome.success l s =>
      [JobEvent.fetchAttempt, JobEvent.updateRun RunStatus.success l s none]
    | AttemptOutcome.skipped l msg =>
      [JobEvent.fetchAttempt, JobEvent.updateRun RunStatus.skipped l 0 (some msg)]
    | AttemptOutcome.failure e =>
      JobEvent.fetchAttempt :: forecastLoop rest (some (FetchResult.err e)) (some e)
    | AttemptOutcome.exn e =>
      JobEvent.fetchAttempt :: forecastLoop rest result (some e)
    | AttemptOutcome.successThenExn l s e =>
      JobEvent.fetchAttempt :: forecastLoop rest (some (FetchResult.ok l s)) (some e)

/-- Embedding of `run_forecast_scrape_job` (`app/scheduler/jobs.py` lines
21-135): the ScrapeRun row is created with status running before the retry
loop issues any fetch. -/
def run_forecast_scrape_job (attempts : List AttemptOutcome) : List JobEvent :=
  JobEvent.createRun RunStatus.running :: forecastLoop attempts none none

/-- The `last_error` variable after processing the whole attempt list. -/
def lastErrorOf : List AttemptOutcome → Option String → Option String
  | [], acc => acc
  | AttemptOutcome.failure e :: rest, _ => lastErrorOf rest (some e)
  | AttemptOutcome.exn e :: rest, _ => lastErrorOf rest (some e)
  | AttemptOutcome.successThenExn _ _ e :: rest, _ => lastErrorOf rest (some e)
  | _ :: rest, acc => lastErrorOf rest acc

/-- An attempt that produced no usable result dict. -/
def isFailedAttempt : AttemptOutcome → Bool
  | AttemptOutcome.failure _ => true
  | AttemptOutcome.exn _ => true
  | _ => false

/-- The loop always emits some fetch events followed by exactly one
terminal update. -/
theorem forecastLoop_shape :
    ∀ (attempts : List AttemptOutcome) (result : Option FetchResult)
      (lastErr : Option String),
      ∃ (n : Nat) (st : RunStatus) (l s : Nat) (err : Option String),
        forecastLoop attempts result lastErr
          = List.replicate n JobEvent.fetchAttempt ++ [JobEvent.updateRun st l s err] ∧
        st ≠ RunStatus.running
  | [], result, lastErr => by
    cases result with
    | none => exact ⟨0, RunStatus.failed, 0, 0, lastErr, rfl, by simp⟩
    | some fr =>
      cases fr with
      | ok l s => exact ⟨0, RunStatus.success, l, s, none, rfl, by simp⟩
      | err e => exact ⟨0, RunStatus.failed, 0, 0, lastErr, rfl, by simp⟩
  | a :: rest, result, lastErr => by
    cases a with
    | success l s => exact ⟨1, RunStatus.success, l, s, none, rfl, by simp⟩
    | skipped l msg => exact ⟨1, RunStatus.skipped, l, 0, some msg, rfl, by simp⟩
    | failure e =>
      obtain ⟨n, st, l, s, err, heq, hst⟩ :=
        forecastLoop_shape rest (some (FetchResult.err e)) (some e)
      exact ⟨n + 1, st, l, s, err, by
        simp only [forecastLoop, heq, List.replicate_succ, List.cons_append], hst⟩
    | exn e =>
      obtain ⟨n, st, l, s, err, heq, hst⟩ := forecastLoop_shape rest result (some e)
      exact ⟨n + 1, st, l, s, err, by
        simp only [forecastLoop, heq, List.replicate_succ, List.cons_append], hst⟩
    | successThenExn l0 s0 e =>
      obtain ⟨n, st, l, s, err, heq, hst⟩ :=
        forecastLoop_shape rest (some (FetchResult.ok l0 s0)) (some e)
      exact ⟨n + 1, st, l, s, err, by
        simp only [forecastLoop, heq, List.replicate_succ, List.cons_append], hst⟩

/-- When every attempt fails and no success dict is held, the loop ends by
marking the run failed with the last error seen. -/
theorem forecastLoop_all_failed :
    ∀ (attempts : List AttemptOutcome), (∀ a ∈ attempts, isFailedAttempt a = true) →
      ∀ (result : Option FetchResult) (lastErr : Option String),
        (∀ l s, result ≠ some (FetchResult.ok l s)) →
        ∃ n, forecastLoop attempts result lastErr
          = List.replicate n JobEvent.fetchAttempt
            ++ [JobEvent.updateRun RunStatus.failed 0 0 (lastErrorOf attempts lastErr)]
  | [], _, result, lastErr, hok => by
    cases result with
    | none => exact ⟨0, rfl⟩
    | some fr =>
      cases fr with
      | ok l s => exact absurd rfl (hok l s)
      | err e => exact ⟨0, rfl⟩
  | a :: rest, hall, result, lastErr, hok => by
    cases a with
    | success l s => simp [isFailedAttempt] at hall
    | skipped l msg => simp [isFailedAttempt] at hall
    | successThenExn l s e => simp [isFailedAttempt] at hall
    | failure e =>
      obtain ⟨n, heq⟩ := forecastLoop_all_failed rest
        (fun x hx => hall x (List.mem_cons_of_mem _ hx))
        (some (FetchResult.err e)) (some e) (fun l s h => by simp at h)
      exact ⟨n + 1, by
        simp only [forecastLoop, heq, lastErrorOf, List.replicate_succ, List.cons_append]⟩
    | exn e =>
      obtain ⟨n, heq⟩ := forecastLoop_all_failed rest
        (fun x hx => hall x (List.mem_cons_of_mem _ hx)) result (some e) hok
      exact ⟨n + 1, by
        simp only [forecastLoop, heq, lastErrorOf, List.replicate_succ, List.cons_append]⟩

/-- C6: every execution creates exactly one ScrapeRun with status running
as the first event, before any fetch attempt; the trace then ends with
exactly one terminal (non-running) update; and when every attempt fails,
the terminal update marks the run failed with the last error seen as its
error message. -/
theorem C6_run_lifecycle (attempts : List AttemptOutcome) :
    (∃ (n : Nat) (st : RunStatus) (l s : Nat) (err : Option String),
      run_forecast_scrape_job attempts
        = JobEvent.createRun RunStatus.running
            :: (List.replicate n JobEvent.fetchAttempt
              ++ [JobEvent.updateRun st l s err]) ∧
      st ≠ RunStatus.running) ∧
    ((∀ a ∈ attempts, isFailedAttempt a = true) →
      ∃ n, run_forecast_scrape_job attempts
        = JobEvent.createRun RunStatus.running
            :: (List.replicate n JobEvent.fetchAttempt
              ++ [JobEvent.updateRun RunStatus.failed 0 0 (lastErrorOf attempts none)])) := by
  constructor
  · obtain ⟨n, st, l, s, err, heq, hst⟩ := forecastLoop_shape attempts none none
    exact ⟨n, st, l, s, err, by rw [run_forecast_scrape_job, heq], hst⟩
  · intro hall
    obtain ⟨n, heq⟩ := forecastLoop_all_failed attempts hall none none (fun l s h => by
      simp at h)
    exact ⟨n, by rw [run_forecast_scrape_job, heq]⟩

/-- Witness for C6: two failing attempts mark the run failed with the last
error seen. -/
theorem C6_witness :
    ∃ n, run_forecast_scrape_job [AttemptOutcome.failure "bad", AttemptOutcome.exn "boom"]
      = JobEvent.createRun RunStatus.running
          :: (List.replicate n JobEvent.fetchAttempt
            ++ [JobEvent.updateRun RunStatus.failed 0 0
                (lastErrorOf [AttemptOutcome.failure "bad", AttemptOutcome.exn "boom"] none)]) :=
  (C6_run_lifecycle [AttemptOutcome.failure "bad", AttemptOutcome.exn "boom"]).2 (by decide)

end Senamhi
